import Mathlib

/-
  Verification development for the scrapper-dashboard crawl-and-score pipeline.

  Shallow embedding of:
  - backend/scoring/scoring_consumer.py (OptimizedScorer, process_message,
    worker_thread.callback, update_supabase_score, check_if_already_scored)
  - backend/scoring/score.py (Scorer: same scoring logic as OptimizedScorer)
  - backend/crawler/crawler_consumer.py (worker_thread.callback,
    check_if_already_crawled, save_profile_data, load_urls_from_profile_folder)

  Strings are embedded as List Char; Python dict truthiness of a string is
  emptiness, of a dict is presence (Option), of an int is being nonzero.
  Float arithmetic of the source is embedded as exact rational arithmetic.
  The external rapidfuzz library is embedded from its documented semantics:
  fuzz.ratio is the normalized indel similarity, 100 * 2 * lcs(a,b) divided
  by (length a + length b); fuzz.partial sliding ratio is the best ratio of
  the shorter string against the windows of the longer one.
-/

namespace Scrapper

/-- Lowercase a string, embedding the Python str.lower call. -/
def lowerStr (s : List Char) : List Char := s.map Char.toLower

/-- Decide whether the first list starts with the second one. -/
def strStarts : List Char → List Char → Bool
  | _, [] => true
  | [], _ :: _ => false
  | a :: as, b :: bs => a == b && strStarts as bs

/-- Decide whether needle occurs as a contiguous substring of hay,
embedding the Python expression needle in hay on strings. -/
def strHas (hay need : List Char) : Bool :=
  strStarts hay need ||
    match hay with
    | [] => false
    | _ :: t => strHas t need

/-- Helper of splitWs accumulating the current word in reverse. -/
def splitWsGo : List Char → List Char → List (List Char)
  | acc, [] => if acc = [] then [] else [acc.reverse]
  | acc, c :: t =>
    if c.isWhitespace then
      if acc = [] then splitWsGo [] t else acc.reverse :: splitWsGo [] t
    else splitWsGo (c :: acc) t

/-- Split a string on whitespace runs discarding empty pieces, embedding the
Python str.split call with no argument. -/
def splitWs (s : List Char) : List (List Char) := splitWsGo [] s

/-- Strip leading and trailing whitespace, embedding the Python str.strip call. -/
def trimStr (s : List Char) : List Char :=
  ((s.dropWhile Char.isWhitespace).reverse.dropWhile Char.isWhitespace).reverse

/-- Length of a longest common subsequence, on fuel for structural
recursion; the fuel never runs out when it starts at the summed lengths
because every recursive call shortens one of the lists. -/
def lcsGo : Nat → List Char → List Char → Nat
  | _, [], _ => 0
  | _, _, [] => 0
  | 0, _ :: _, _ :: _ => 0
  | f + 1, a :: as, b :: bs =>
    if a = b then lcsGo f as bs + 1
    else max (lcsGo f (a :: as) bs) (lcsGo f as (b :: bs))

/-- Length of a longest common subsequence of the two strings. -/
def lcs (a b : List Char) : Nat := lcsGo (a.length + b.length) a b

/-- Embedding of the external rapidfuzz fuzz.ratio from its documented
semantics: the normalized indel similarity scaled to 0..100, which equals
100 * 2 * lcs over the summed lengths (100 when both strings are empty). -/
def ratioQ (a b : List Char) : ℚ :=
  if a.length + b.length = 0 then 100
  else (200 * lcs a b : ℚ) / (a.length + b.length)

/-- Decision of the threshold test on the fuzz ratio, cross-multiplied to
integers: for a threshold of at most 100 this is exactly the comparison of
the threshold against ratioQ (proved below as ratioGeBIff), stated over
naturals so that it evaluates by kernel reduction. -/
def ratioGeB (thr : Nat) (a b : List Char) : Bool :=
  decide (thr * (a.length + b.length) ≤ 200 * lcs a b)

/-- Best ratioQ of a against the windows of b of length of a (one window
taken at every suffix of b, truncated at the end). -/
def bestWindowQ (a : List Char) : List Char → ℚ
  | [] => ratioQ a []
  | c :: t => max (ratioQ a ((c :: t).take a.length)) (bestWindowQ a t)

/-- Embedding of the external rapidfuzz sliding partial similarity from its
documented semantics: the best ratio of the shorter string against the
equally long windows of the longer one. -/
def pRatioQ (a b : List Char) : ℚ :=
  if a.length ≤ b.length then bestWindowQ a b else bestWindowQ b a

/-- Numeric value of a digit string, embedding the Python int call. -/
def digitsVal (ds : List Char) : Nat :=
  ds.foldl (fun n c => n * 10 + (c.toNat - '0'.toNat)) 0

/-- Scanner of findNumBefore, on fuel for structural recursion; the fuel
never runs out when it starts at the length of the string because every
recursive call shortens the string. -/
def findNumGo (unit : List Char) : Nat → List Char → Option Nat
  | _, [] => none
  | 0, _ :: _ => none
  | f + 1, c :: t =>
    if c.isDigit then
      let rest := t.dropWhile Char.isDigit
      if strStarts (rest.dropWhile Char.isWhitespace) unit then
        some (digitsVal (c :: t.takeWhile Char.isDigit))
      else findNumGo unit f rest
    else findNumGo unit f t

/-- Embedding of the Python re.search over the raw pattern of one integer
group, optional whitespace and a literal unit (the source patterns are the
digits-then-yr and digits-then-mo ones): scan for the leftmost maximal digit
run that is followed, after optional whitespace, by the unit, and return its
value.  Skipping a whole failed run is equivalent to the regex restart at
the next offset because no proper suffix of a failed run can match. -/
def findNumBefore (unit : List Char) (s : List Char) : Option Nat :=
  findNumGo unit s.length s

/-- Months encoded by a duration text, embedding the duration parsing of
OptimizedScorer._score_experience: years from the digits-then-yr pattern,
months from the digits-then-mo pattern, total years * 12 + months (a text
matching neither pattern contributes zero). -/
def durationMonths (d : List Char) : Nat :=
  (findNumBefore ('y' :: 'r' :: []) d).getD 0 * 12
    + (findNumBefore ('m' :: 'o' :: []) d).getD 0

/-- Embedding of one experience entry of a profile (the scorer reads the
title, company, description and duration keys, each defaulting to the
empty string). -/
structure Experience where
  title : List Char
  company : List Char
  description : List Char
  duration : List Char
deriving DecidableEq

/-- Embedding of one education entry of a profile (the scorer reads the
degree key, defaulting to the empty string). -/
structure Education where
  degree : List Char
deriving DecidableEq

/-- Embedding of a profile as read by the scorer.  A missing string field is
the empty string (Python get with empty default), a missing age is none, and
the estimated age object is collapsed to its inner value (the object being
absent, or present without an inner value, both embed to none: in either
case the source resolves no fallback age). -/
structure Profile where
  profile_url : List Char
  name : List Char
  gender : List Char
  location : List Char
  age : Option Nat
  estimated_age : Option Nat
  experiences : List Experience
  skills : List (List Char)
  education : List Education
deriving DecidableEq

/-- Profile with every field absent. -/
def emptyProfile : Profile := ⟨[], [], [], [], none, none, [], [], []⟩

/-- Embedding of the required age range value of a requirements template. -/
structure AgeRange where
  min : Nat
  max : Nat
deriving DecidableEq

/-- Embedding of a requirements template as read by OptimizedScorer: the
required_gender, required_location, required_age_range, min_experience_years,
required_experience_keywords, preferred_experience_keywords, required_skills,
preferred_skills, position and education_level keys.  Skill maps are embedded
as association lists of name and weight in insertion order. -/
structure Requirements where
  required_gender : List Char
  required_location : List Char
  required_age_range : Option AgeRange
  min_experience_years : ℚ
  required_experience_keywords : List (List Char)
  preferred_experience_keywords : List (List Char)
  required_skills : List (List Char × ℚ)
  preferred_skills : List (List Char × ℚ)
  position : List Char
  education_level : List (List Char)
deriving DecidableEq

/-- Requirements template with every key absent. -/
def emptyRequirements : Requirements := ⟨[], [], none, 0, [], [], [], [], [], []⟩

/-- Value of the match field stored in the demographic details: the source
stores True, False or the string partial. -/
inductive MatchFlag where
  | yes
  | no
  | part
deriving DecidableEq

/-- Embedding of the gender branch of OptimizedScorer._score_demographics:
15 points and a positive match when both the lowered required value and the
lowered profile gender are nonempty and either is a substring of the other,
else 0 points and no match. -/
def genderScore (reqs : Requirements) (p : Profile) : ℚ × MatchFlag :=
  let rg := lowerStr reqs.required_gender
  let pg := lowerStr p.gender
  if rg ≠ [] ∧ pg ≠ [] then
    if strHas pg rg || strHas rg pg then (15, .yes) else (0, .no)
  else (0, .no)

/-- Embedding of the location branch of OptimizedScorer._score_demographics:
substring either way gives 15 points, else a sliding fuzzy similarity of at
least 80 gives 15 scaled by the similarity and a partial match, else 0. -/
def locationScore (reqs : Requirements) (p : Profile) : ℚ × MatchFlag :=
  let rl := lowerStr reqs.required_location
  let pl := lowerStr p.location
  if rl ≠ [] ∧ pl ≠ [] then
    if strHas pl rl || strHas rl pl then (15, .yes)
    else
      let r := pRatioQ rl pl
      if r ≥ 80 then (15 * (r / 100), .part) else (0, .no)
  else (0, .no)

/-- Embedding of the candidate age resolution of the age branch: the age
field when present and truthy (nonzero), else the estimated age value. -/
def resolvedAge (p : Profile) : Option Nat :=
  match p.age with
  | some a => if a ≠ 0 then some a else p.estimated_age
  | none => p.estimated_age

/-- Embedding of the age branch of OptimizedScorer._score_demographics:
when an age range is required and a truthy candidate age resolves, inclusive
containment gives 10 points and a positive match; an age outside the range
gives max 0 (10 minus 2 per year of distance to the violated bound) and no
match; otherwise 0 points and no match. -/
def ageScore (reqs : Requirements) (p : Profile) : ℚ × Bool :=
  match reqs.required_age_range, resolvedAge p with
  | some r, some a =>
    if a ≠ 0 then
      if r.min ≤ a ∧ a ≤ r.max then (10, true)
      else
        let d : ℤ := if a < r.min then (r.min : ℤ) - (a : ℤ) else (a : ℤ) - (r.max : ℤ)
        (((max 0 (10 - 2 * d) : ℤ) : ℚ), false)
    else (0, false)
  | _, _ => (0, false)

/-- Deduplication keeping first occurrences, with a seen accumulator; a
deterministic embedding of the Python list of set call of the source (the
properties proved do not depend on the resulting order). -/
def dedupGo : List (List Char) → List (List Char) → List (List Char)
  | _, [] => []
  | seen, x :: t => if x ∈ seen then dedupGo seen t else x :: dedupGo (x :: seen) t

/-- Stop words removed from the experience keyword list by the source. -/
def commonWords : List (List Char) :=
  [ "and".toList, "or".toList, "the".toList, "a".toList, "an".toList,
    "in".toList, "on".toList, "at".toList, "to".toList, "for".toList,
    "-".toList ]

/-- Embedding of the keyword assembly of OptimizedScorer._score_experience:
lowered explicit experience keywords, else skills names and position words;
stop words and words of length at most 2 removed, duplicates erased; when
nothing remains, the single empty keyword that matches every text. -/
def expKeywords (reqs : Requirements) : List (List Char) :=
  let base :=
    (reqs.required_experience_keywords ++ reqs.preferred_experience_keywords).map lowerStr
  let base :=
    if base = [] then
      reqs.required_skills.map (fun s => lowerStr s.1)
        ++ reqs.preferred_skills.map (fun s => lowerStr s.1)
        ++ splitWs (lowerStr reqs.position)
    else base
  let filtered :=
    dedupGo [] (base.filter (fun kw => !commonWords.contains kw && decide (2 < kw.length)))
  if filtered = [] then [[]] else filtered

/-- Combined lowered text of one experience, embedding the source f-string
of title, company and description separated by single spaces. -/
def expText (e : Experience) : List Char :=
  lowerStr e.title ++ ' ' :: lowerStr e.company ++ ' ' :: lowerStr e.description

/-- Embedding of the per-keyword relevance test: direct substring match on
the combined text, else a fuzzy similarity of at least 80 against some
whitespace word of it. -/
def kwMatches (kw txt : List Char) : Bool :=
  strHas txt kw || (splitWs txt).any (fun w => ratioGeB 80 kw w)

/-- Embedding of the relevance of one experience: some keyword matches. -/
def isRelevant (kws : List (List Char)) (e : Experience) : Bool :=
  kws.any (fun kw => kwMatches kw (expText e))

/-- Embedding of the relevant month total of _score_experience: sum of the
parsed duration months of exactly the relevant experiences (an empty or
unparseable duration contributes zero months, as in the source). -/
def relevantMonths (reqs : Requirements) (exps : List Experience) : Nat :=
  (exps.filter (isRelevant (expKeywords reqs))).foldl
    (fun acc e => acc + durationMonths e.duration) 0

/-- Relevant years as computed by the source, months over 12. -/
def relevantYears (reqs : Requirements) (exps : List Experience) : ℚ :=
  (relevantMonths reqs exps : ℚ) / 12

/-- Embedding of the meets_requirement flag of _score_experience. -/
def expMeets (reqs : Requirements) (exps : List Experience) : Bool :=
  decide (reqs.min_experience_years ≤ relevantYears reqs exps)

/-- Embedding of the experience points of _score_experience: 25 when the
relevant years reach the minimum, partial credit within one year of it,
else 0. -/
def expPoints (reqs : Requirements) (exps : List Experience) : ℚ :=
  let ry := relevantYears reqs exps
  let m := reqs.min_experience_years
  if ry ≥ m then 25
  else if ry ≥ m - 1 ∧ ry > 0 then (ry / m) * 25
  else 0

/-- Embedding of the skill list normalization of _score_skills: drop empty
and N/A entries, lowercase and strip the rest. -/
def skillNames (skills : List (List Char)) : List (List Char) :=
  (skills.filter (fun s => !s.isEmpty && s != "N/A".toList)).map
    (fun s => trimStr (lowerStr s))

/-- Embedding of the inner loop of _score_skills: best similarity of a
required skill against the profile skills, counting only similarities of at
least 70, together with whether any counted. -/
def bestRatioFor (skill : List Char) (names : List (List Char)) : ℚ × Bool :=
  names.foldl
    (fun acc ps =>
      let fr := max (ratioQ skill ps) (pRatioQ skill ps)
      if 70 ≤ fr ∧ acc.1 < fr then (fr, true) else acc)
    (0, false)

/-- Embedding of one weighted skill group of _score_skills: each matched
skill contributes its weight share of the group points scaled by its best
similarity. -/
def skillGroupPoints (group : List (List Char × ℚ)) (pts : ℚ)
    (names : List (List Char)) : ℚ :=
  if group = [] then 0
  else
    let total := (group.map (fun sw => sw.2)).sum
    group.foldl
      (fun acc sw =>
        let b := bestRatioFor (lowerStr sw.1) names
        if b.2 then acc + (sw.2 / total) * pts * (b.1 / 100) else acc)
      0

/-- Embedding of _score_skills: 18 points over the required skills plus 7
over the preferred ones. -/
def skillsPoints (reqs : Requirements) (skills : List (List Char)) : ℚ :=
  let names := skillNames skills
  skillGroupPoints reqs.required_skills 18 names
    + skillGroupPoints reqs.preferred_skills 7 names

/-- Degree level table of _score_education in source order. -/
def eduLevels : List (List Char × Nat) :=
  [ ( "high school".toList, 1), ( "sma".toList, 1), ( "smk".toList, 1),
    ( "diploma".toList, 2), ( "associate".toList, 2), ( "d3".toList, 2),
    ( "bachelor".toList, 3), ( "s1".toList, 3), ( "sarjana".toList, 3),
    ( "master".toList, 4), ( "s2".toList, 4), ( "mba".toList, 4),
    ( "doctoral".toList, 5), ( "phd".toList, 5), ( "s3".toList, 5) ]

/-- Highest level name contained in a lowered degree text, per the source
loop that keeps the largest matching level. -/
def levelOf (txt : List Char) (start : Nat) : Nat :=
  eduLevels.foldl
    (fun h lv => if strHas txt lv.1 ∧ h < lv.2 then lv.2 else h) start

/-- Embedding of the highest attained level of _score_education. -/
def highestLevel (edus : List Education) : Nat :=
  edus.foldl
    (fun h e =>
      let deg := lowerStr e.degree
      if deg = [] then h else levelOf deg h)
    0

/-- Embedding of the required level of _score_education. -/
def requiredLevel (required : List (List Char)) : Nat :=
  required.foldl (fun h r => levelOf (lowerStr r) h) 0

/-- Embedding of _score_education: 10 when no level is required, 0 when the
profile has no education, full 10 when the highest attained level reaches
the required one, else a proportional share. -/
def eduPoints (reqs : Requirements) (edus : List Education) : ℚ :=
  if reqs.education_level = [] then 10
  else if edus = [] then 0
  else
    let h := highestLevel edus
    let r := requiredLevel reqs.education_level
    if r ≤ h then 10
    else if 0 < h then (if 0 < r then ((h : ℚ) / r) * 10 else 0)
    else 0

/-- Embedding of the running total of OptimizedScorer.score: demographics
(gender, location, age), experience, skills and education points. -/
def totalPoints (reqs : Requirements) (p : Profile) : ℚ :=
  (genderScore reqs p).1 + (locationScore reqs p).1 + (ageScore reqs p).1
    + expPoints reqs p.experiences + skillsPoints reqs p.skills
    + eduPoints reqs p.education

/-- Rounding to two decimals over exact rationals, embedding the Python
round call on the float results of the source (floor of the half-shifted
hundredfold; exact on the nonnegative values the scorer produces). -/
def round2 (q : ℚ) : ℚ := ((⌊q * 100 + 1 / 2⌋ : ℤ) : ℚ) / 100

/-- Embedding of the result dict of OptimizedScorer.score together with the
breakdown flags the claims refer to. -/
structure ScoreResult where
  total_score : ℚ
  percentage : ℚ
  genderMatch : MatchFlag
  locationMatch : MatchFlag
  ageMatch : Bool
  agePoints : ℚ
  meets_requirement : Bool
  relevant_months : Nat
deriving DecidableEq

/-- Embedding of OptimizedScorer.score: the total over all components, the
percentage computed by the source as the total over 100 times 100, both
rounded to two decimals, plus the breakdown flags. -/
def score (reqs : Requirements) (p : Profile) : ScoreResult :=
  { total_score := round2 (totalPoints reqs p)
    percentage := round2 ((totalPoints reqs p / 100) * 100)
    genderMatch := (genderScore reqs p).2
    locationMatch := (locationScore reqs p).2
    ageMatch := (ageScore reqs p).2
    agePoints := (ageScore reqs p).1
    meets_requirement := expMeets reqs p.experiences
    relevant_months := relevantMonths reqs p.experiences }

/-- Modelled from the spec: the ack_message and nack_message helpers that
crawler_consumer.py imports from helper.rabbitmq_helper are not in the
sources; per the spec queue contract (explicit ack and nack with a requeue
flag, and the sources always passing requeue false) they are modelled as
primitive broker operations emitted by a callback. -/
inductive Resolution where
  | ack
  | nackNoRequeue
deriving DecidableEq

/-- Embedding of check_if_already_crawled of crawler_consumer.py: the set of
profile urls recorded in the output directory is embedded as a list, the
hash-pattern and content scans both reducing to membership of the url. -/
def checkIfAlreadyCrawled (crawled : List (List Char)) (pu : List Char) : Bool :=
  decide (pu ∈ crawled)

/-- Embedding of save_profile_data of crawler_consumer.py as a transition on
the recorded url set: a nonempty url already recorded skips the write and
leaves the set unchanged; otherwise the profile is written, recording its
url when nonempty.  The returned flag says whether a new file was written. -/
def saveProfileData (crawled : List (List Char)) (pu : List Char) :
    Bool × List (List Char) :=
  if pu ≠ [] ∧ checkIfAlreadyCrawled crawled pu = true then (false, crawled)
  else (true, if pu = [] then crawled else crawled ++ [pu])

/-- Embedding of a crawl queue message: the worker callback only reads the
url key (absent embeds to none). -/
structure CrawlMsg where
  url : Option (List Char)
deriving DecidableEq

/-- Observable outcome of one run of the crawl worker callback: the broker
operations emitted in order, whether the Scraper was invoked, how many
score jobs were published, whether a profile file was written, the recorded
url set afterwards, and the statistics deltas. -/
structure CrawlOutcome where
  resolution : List Resolution
  scraperInvoked : Bool
  scoreJobsPublished : Nat
  savedProfile : Bool
  crawledUrls : List (List Char)
  completedDelta : Nat
  failedDelta : Nat
  skippedDelta : Nat
deriving DecidableEq

/-- Embedding of worker_thread.callback of crawler_consumer.py.  The parsed
body is none when json.loads raises (outer handler: nack without requeue,
no counter).  A message without a url is acked immediately with no counter
change.  Otherwise the Scraper login and get_profile calls always run; the
external Scraper outcome is the scrape argument.  On success the profile is
saved through save_profile_data, a score job publish is attempted (the
external publish outcome is the pubOk argument, counted but not affecting
the ack), completed is incremented and the message acked.  On a Scraper
error failed is incremented and the message nacked without requeue.  The
broker primitives themselves are assumed not to raise. -/
def crawlCallback (crawled : List (List Char)) (body : Option CrawlMsg)
    (scrape : Except Unit Profile) (pubOk : Bool) : CrawlOutcome :=
  match body with
  | none =>
    { resolution := [.nackNoRequeue], scraperInvoked := false,
      scoreJobsPublished := 0, savedProfile := false, crawledUrls := crawled,
      completedDelta := 0, failedDelta := 0, skippedDelta := 0 }
  | some msg =>
    match msg.url with
    | none =>
      { resolution := [.ack], scraperInvoked := false,
        scoreJobsPublished := 0, savedProfile := false, crawledUrls := crawled,
        completedDelta := 0, failedDelta := 0, skippedDelta := 0 }
    | some _ =>
      match scrape with
      | .ok prof =>
        let sv := saveProfileData crawled prof.profile_url
        { resolution := [.ack], scraperInvoked := true,
          scoreJobsPublished := if pubOk then 1 else 0,
          savedProfile := sv.1, crawledUrls := sv.2,
          completedDelta := 1, failedDelta := 0, skippedDelta := 0 }
      | .error _ =>
        { resolution := [.nackNoRequeue], scraperInvoked := true,
          scoreJobsPublished := 0, savedProfile := false, crawledUrls := crawled,
          completedDelta := 0, failedDelta := 1, skippedDelta := 0 }

/-- Embedding of one step of the url loading loop of
load_urls_from_profile_folder of crawler_consumer.py: an entry with an
empty url is ignored, a sales url or an already crawled url is counted as
skipped, anything else is appended to the urls to publish. -/
def loadStep (crawled : List (List Char)) (acc : List (List Char) × Nat)
    (url : List Char) : List (List Char) × Nat :=
  if url = [] then acc
  else if strHas (lowerStr url) ('/' :: 's' :: 'a' :: 'l' :: 'e' :: 's' :: '/' :: []) then
    (acc.1, acc.2 + 1)
  else if url ∈ crawled then (acc.1, acc.2 + 1)
  else (acc.1 ++ [url], acc.2)

/-- Embedding of load_urls_from_profile_folder of crawler_consumer.py over
the urls of the profile entries: the urls to publish and the skip count. -/
def loadUrls (entries : List (List Char)) (crawled : List (List Char)) :
    List (List Char) × Nat :=
  entries.foldl (loadStep crawled) ([], 0)

/-- Embedding of check_if_already_scored of scoring_consumer.py: the score
files on disk are embedded as the list of their url and requirements id
pairs, both scans reducing to membership of the pair. -/
def checkIfAlreadyScored (scoredFiles : List (List Char × List Char))
    (pu reqId : List Char) : Bool :=
  decide ((pu, reqId) ∈ scoredFiles)

/-- Embedding of the Python or between the template id and the requirements
id of process_message: the first id when present, else the second (an
absent or empty, hence falsy, id embeds to none). -/
def orId (a b : Option (List Char)) : Option (List Char) :=
  match a with
  | some x => some x
  | none => b

/-- Embedding of a scoring queue message: process_message reads the
profile_data, template_id and requirements_id keys. -/
structure ScoreMsg where
  profile_data : Option Profile
  template_id : Option (List Char)
  requirements_id : Option (List Char)
deriving DecidableEq

/-- Observable outcome of one run of the scoring worker callback: the broker
operations emitted in order, the statistics deltas, and the evaluator result
when the scorer ran. -/
structure ScoringOutcome where
  resolution : List Resolution
  completedDelta : Nat
  failedDelta : Nat
  skippedDelta : Nat
  scored : Option ScoreResult
deriving DecidableEq

/-- Embedding of worker_thread.callback with process_message of
scoring_consumer.py.  The parsed body is none when json.loads raises (outer
handler: failed incremented, nack without requeue).  process_message returns
false on a missing profile_data or on both ids missing and on a failed
requirements lookup (the external lookup outcome is the reqsLookup
argument), each making the callback count failed and nack without requeue.
An already scored url makes process_message count skipped and return true,
so the callback also counts completed and acks.  Otherwise the scorer runs
and the callback counts completed and acks; persistence outcomes do not
change the resolution.  The broker primitives are assumed not to raise. -/
def scoringCallback (scoredFiles : List (List Char × List Char))
    (body : Option ScoreMsg) (reqsLookup : Option Requirements) :
    ScoringOutcome :=
  match body with
  | none =>
    { resolution := [.nackNoRequeue], completedDelta := 0, failedDelta := 1,
      skippedDelta := 0, scored := none }
  | some msg =>
    match msg.profile_data with
    | none =>
      { resolution := [.nackNoRequeue], completedDelta := 0, failedDelta := 1,
        skippedDelta := 0, scored := none }
    | some prof =>
      match orId msg.template_id msg.requirements_id with
      | none =>
        { resolution := [.nackNoRequeue], completedDelta := 0, failedDelta := 1,
          skippedDelta := 0, scored := none }
      | some reqId =>
        if prof.profile_url ≠ []
            ∧ checkIfAlreadyScored scoredFiles prof.profile_url reqId = true then
          { resolution := [.ack], completedDelta := 1, failedDelta := 0,
            skippedDelta := 1, scored := none }
        else
          match reqsLookup with
          | none =>
            { resolution := [.nackNoRequeue], completedDelta := 0,
              failedDelta := 1, skippedDelta := 0, scored := none }
          | some reqs =>
            { resolution := [.ack], completedDelta := 1, failedDelta := 0,
              skippedDelta := 0, scored := some (score reqs prof) }

/-- Embedding of one row of the leads_list table as touched by the pipeline. -/
structure Lead where
  profile_url : List Char
  name : Option (List Char)
  profile_data : Option Profile
  score : Option ℚ
  scored_at : Option Nat
  connection_status : Option (List Char)
  date : Option Nat
deriving DecidableEq

/-- Embedding of the select by profile_url used by update_supabase_score. -/
def getLead (st : List Lead) (url : List Char) : Option Lead :=
  st.find? (fun l => l.profile_url == url)

/-- Per-row update applied by update_supabase_score when the lead exists:
the score and scored_at are always overwritten with the new values, the
name is refreshed from the profile when available, and the profile_data is
filled in only when the stored one (of the row found by the select) is
absent; rows of other urls are untouched. -/
def scoreUpd (url : List Char) (totalScore : ℚ) (profileData : Option Profile)
    (today : Nat) (existingPd : Option Profile) (l : Lead) : Lead :=
  if l.profile_url == url then
    { l with
      score := some totalScore
      scored_at := some today
      name :=
        match profileData with
        | some pd => if pd.name ≠ [] then some pd.name else l.name
        | none => l.name
      profile_data :=
        match profileData with
        | some pd => if existingPd = none then some pd else l.profile_data
        | none => l.profile_data }
  else l

/-- Embedding of update_supabase_score of scoring_consumer.py as a
transition on the leads table.  When a lead with the url exists, every row
of that url is updated through scoreUpd (always overwriting the score and
scored_at).  When no lead exists, a new row is inserted with the score, the
dates, the scored status and the profile payload.  The today argument
embeds the current date. -/
def updateSupabaseScore (st : List Lead) (url : List Char) (totalScore : ℚ)
    (profileData : Option Profile) (today : Nat) : List Lead :=
  match getLead st url with
  | some existing =>
    st.map (scoreUpd url totalScore profileData today existing.profile_data)
  | none =>
    st ++
      [{ profile_url := url
         name := profileData.map (fun pd => pd.name)
         profile_data := profileData
         score := some totalScore
         scored_at := some today
         connection_status := some ('s' :: 'c' :: 'o' :: 'r' :: 'e' :: 'd' :: [])
         date := some today }]

/-- Requirements template requiring the male gender and nothing else. -/
def reqsMale : Requirements :=
  { emptyRequirements with required_gender := "male".toList }

/-- Profile of a female candidate located in Bandung. -/
def profBandung : Profile :=
  { emptyProfile with gender := "female".toList, location := "bandung".toList }

/-- Requirements template requiring an age between 20 and 35. -/
def reqsAge : Requirements :=
  { emptyRequirements with required_age_range := some ⟨20, 35⟩ }

/-- Profile with the direct age 20, on the lower boundary of reqsAge. -/
def profAge20 : Profile := { emptyProfile with age := some 20 }

/-- Profile with the direct age 37, two years above the range of reqsAge. -/
def profAge37 : Profile := { emptyProfile with age := some 37 }

/-- Requirements template asking for 2 years of experience, with the single
experience keyword negotiation. -/
def reqs7 : Requirements :=
  { emptyRequirements with
    min_experience_years := 2
    required_experience_keywords := [ "negotiation".toList ] }

/-- Experience entry whose text shares nothing with the keyword negotiation
and whose duration text parses to 3 years. -/
def exp7 : Experience := ⟨ "x".toList, "y".toList, [], "3 yr".toList⟩

/-- Crawl url used in the concrete queue scenarios. -/
def urlU : List Char := 'u' :: []

/-- Profile carrying urlU as its url. -/
def profU : Profile := { emptyProfile with profile_url := urlU }

/-- Crawl message carrying urlU. -/
def msgU : CrawlMsg := ⟨some urlU⟩

/-- Crawl message without a url key. -/
def msgNoUrl : CrawlMsg := ⟨none⟩

/-- Scoring message without profile data. -/
def smsgNoProfile : ScoreMsg := ⟨none, some ('t' :: []), none⟩

/-- Scoring message with a profile but with both ids missing. -/
def smsgNoIds : ScoreMsg := ⟨some profU, none, none⟩

/-- Integer threshold decision agrees with the rational fuzz ratio
comparison for every threshold of at most 100, so ratioGeB 80 is exactly
the source test of the ratio being at least 80. -/
theorem ratioGeBIff (thr : Nat) (a b : List Char) (h : thr ≤ 100) :
    ratioGeB thr a b = true ↔ (thr : ℚ) ≤ ratioQ a b := by
  unfold ratioGeB ratioQ
  by_cases h0 : a.length + b.length = 0
  · rw [if_pos h0]
    refine iff_of_true ?_ (by exact_mod_cast h)
    simp [Nat.mul_eq_zero, h0]
  · rw [if_neg h0]
    rw [decide_eq_true_eq]
    have hpos : (0 : ℚ) < ((a.length : ℚ) + (b.length : ℚ)) := by
      have hp := Nat.pos_of_ne_zero h0
      exact_mod_cast hp
    rw [le_div_iff₀ hpos]
    constructor
    · intro hh
      exact_mod_cast hh
    · intro hh
      exact_mod_cast hh

/-- Rounding absorbs the division by 100 followed by the multiplication by
100 that the source applies when computing the percentage. -/
theorem round2Cancel (t : ℚ) : round2 ((t / 100) * 100) = round2 t := by
  rw [div_mul_cancel₀ t (show (100 : ℚ) ≠ 0 by norm_num)]

/-- Total of the scorer on an empty requirements template and empty profile:
experience contributes its full 25 points (zero required years) and
education its full 10 points (no required level), everything else 0. -/
theorem tpEmpty : totalPoints emptyRequirements emptyProfile = 35 := by
  have hg : (genderScore emptyRequirements emptyProfile).1 = 0 := by decide
  have hl : (locationScore emptyRequirements emptyProfile).1 = 0 := by decide
  have ha : (ageScore emptyRequirements emptyProfile).1 = 0 := by decide
  have hM : relevantMonths emptyRequirements emptyProfile.experiences = 0 := by decide
  have hmin : emptyRequirements.min_experience_years = 0 := rfl
  have he : expPoints emptyRequirements emptyProfile.experiences = 25 := by
    simp only [expPoints, relevantYears, hM, hmin]
    norm_num
  have hs : skillsPoints emptyRequirements emptyProfile.skills = 0 := by
    norm_num [skillsPoints, skillGroupPoints, emptyRequirements]
  have hedu : eduPoints emptyRequirements emptyProfile.education = 10 := rfl
  rw [totalPoints, hg, hl, ha, he, hs, hedu]
  norm_num

/-- C1 counterexample: the claim says an empty requirements list yields
percentage 0, but the scorer evaluated on the empty requirements template
and the empty profile returns percentage 35 (the source computes the
percentage as the weighted total, not as matched over total_requirements). -/
theorem c1_counterexample :
    (score emptyRequirements emptyProfile).percentage = 35 ∧
    (score emptyRequirements emptyProfile).percentage ≠ 0 := by
  have h : (score emptyRequirements emptyProfile).percentage = 35 := by
    show round2 ((totalPoints emptyRequirements emptyProfile / 100) * 100) = 35
    rw [tpEmpty]
    rw [round2Cancel 35]
    simp only [round2]
    norm_num
  exact ⟨h, by rw [h]; norm_num⟩

/-- C1 amended: the percentage of every score result equals its total score
(the source computes percentage as total over 100 times 100, so no division
by a requirement count occurs and no division by zero is possible), and the
empty requirements template yields percentage 35, not 0. -/
theorem c1_percentage_eq_total :
    (∀ reqs p, (score reqs p).percentage = (score reqs p).total_score) ∧
    (score emptyRequirements emptyProfile).percentage = 35 := by
  constructor
  · intro reqs p
    exact round2Cancel (totalPoints reqs p)
  · show round2 ((totalPoints emptyRequirements emptyProfile / 100) * 100) = 35
    rw [tpEmpty, round2Cancel 35]
    simp only [round2]
    norm_num

/-- C3 counterexample: the claim says the required value male must not
match the profile gender female, but the source uses substring containment
in either direction, so the evaluator reports a positive gender match on
that exact pair. -/
theorem c3_counterexample :
    reqsMale.required_gender = "male".toList ∧
    profBandung.gender = "female".toList ∧
    (genderScore reqsMale profBandung).2 = MatchFlag.yes := by decide

/-- C3 amended: a gender requirement matches exactly when both the required
value and the profile gender are nonempty and one lowered string is a
substring of the other (so male does match female); in particular a profile
without a gender never matches. -/
theorem c3_gender_substring (reqs : Requirements) (p : Profile) :
    (genderScore reqs p).2 = MatchFlag.yes ↔
      (reqs.required_gender ≠ [] ∧ p.gender ≠ [] ∧
        (strHas (lowerStr p.gender) (lowerStr reqs.required_gender) = true ∨
         strHas (lowerStr reqs.required_gender) (lowerStr p.gender) = true)) := by
  simp only [genderScore]
  split_ifs with h1 h2
  · refine iff_of_true rfl ⟨fun hrg => h1.1 ?_, fun hpg => h1.2 ?_, by simpa using h2⟩
    · rw [hrg]; rfl
    · rw [hpg]; rfl
  · refine iff_of_false (by simp) ?_
    rintro ⟨_, _, hor⟩
    exact h2 (by simpa using hor)
  · refine iff_of_false (by simp) ?_
    rintro ⟨hrg, hpg, _⟩
    refine h1 ⟨fun heq => hrg ?_, fun heq => hpg ?_⟩
    · exact List.map_eq_nil_iff.mp heq
    · exact List.map_eq_nil_iff.mp heq

/-- C5 counterexample: the claim says an empty required value for gender or
location is vacuously matched, but the source requires both sides nonempty,
so the evaluator reports no match on a profile that has both fields. -/
theorem c5_counterexample :
    emptyRequirements.required_gender = [] ∧
    emptyRequirements.required_location = [] ∧
    profBandung.gender ≠ [] ∧ profBandung.location ≠ [] ∧
    (genderScore emptyRequirements profBandung).2 = MatchFlag.no ∧
    (locationScore emptyRequirements profBandung).2 = MatchFlag.no := by decide

/-- C5 amended: a gender or location requirement with an empty value is
never matched (score 0, match false), regardless of the profile: the
evaluator treats the empty value as unmatched, not as vacuous truth. -/
theorem c5_empty_value_no_match (reqs : Requirements) (p : Profile)
    (hg : reqs.required_gender = []) (hl : reqs.required_location = []) :
    genderScore reqs p = (0, MatchFlag.no) ∧
    locationScore reqs p = (0, MatchFlag.no) := by
  constructor
  · simp [genderScore, hg, lowerStr]
  · simp [locationScore, hl, lowerStr]

/-- Witness of the C5 amended theorem at the empty requirements template
and a profile carrying both a gender and a location. -/
theorem c5_empty_value_no_match_witness :
    emptyRequirements.required_gender = [] ∧
    emptyRequirements.required_location = [] ∧
    (genderScore emptyRequirements profBandung = (0, MatchFlag.no) ∧
     locationScore emptyRequirements profBandung = (0, MatchFlag.no)) :=
  ⟨rfl, rfl, c5_empty_value_no_match emptyRequirements profBandung rfl rfl⟩

/-- C6: when an age range is required, the match flag is true exactly for a
resolved truthy candidate age inside the inclusive range (so the bounds
themselves match), a profile with no resolvable age never matches, and the
candidate age comes from the age field with fallback to the estimated age. -/
theorem c6_age_range_inclusive (reqs : Requirements) (p : Profile) (r : AgeRange)
    (hr : reqs.required_age_range = some r) :
    (∀ a, resolvedAge p = some a → a ≠ 0 →
        ((ageScore reqs p).2 = true ↔ (r.min ≤ a ∧ a ≤ r.max)))
    ∧ (resolvedAge p = none → (ageScore reqs p).2 = false)
    ∧ (∀ a, p.age = some a → a ≠ 0 → resolvedAge p = some a)
    ∧ (p.age = none → resolvedAge p = p.estimated_age) := by
  refine ⟨?_, ?_, ?_, ?_⟩
  · intro a ha h0
    simp only [ageScore, hr, ha]
    rw [if_pos h0]
    split_ifs with hin
    · simp [hin]
    · simp [hin]
  · intro ha
    simp only [ageScore, hr, ha]
  · intro a ha h0
    simp only [resolvedAge, ha]
    rw [if_pos h0]
  · intro ha
    simp only [resolvedAge, ha]

/-- Witness of the C6 theorem: age exactly on the lower bound of the 20 to
35 range is matched. -/
theorem c6_age_range_inclusive_witness :
    reqsAge.required_age_range = some ⟨20, 35⟩ ∧
    resolvedAge profAge20 = some 20 ∧ (20 : Nat) ≠ 0 ∧
    (ageScore reqsAge profAge20).2 = true :=
  ⟨rfl, rfl, by decide,
    ((c6_age_range_inclusive reqsAge profAge20 ⟨20, 35⟩ rfl).1 20 rfl
        (by decide)).mpr (by decide)⟩

/-- Folding the month additions of the source loop equals the sum of the
per-experience parsed months. -/
theorem foldAddMonths (l : List Experience) (n : Nat) :
    l.foldl (fun acc e => acc + durationMonths e.duration) n
      = n + (l.map (fun e => durationMonths e.duration)).sum := by
  induction l generalizing n with
  | nil => simp
  | cons e t ih =>
    simp only [List.foldl_cons, List.map_cons, List.sum_cons, ih]
    omega

/-- C7 counterexample: the claim says the months of every experience whose
duration parses are summed, but the source only sums keyword-relevant
experiences: a profile with a single 3 year experience whose text shares
nothing with the required keyword fails a 2 year numeric requirement. -/
theorem c7_counterexample :
    reqs7.min_experience_years = 2 ∧
    durationMonths exp7.duration = 36 ∧
    expMeets reqs7 [exp7] = false := by
  refine ⟨rfl, by decide, ?_⟩
  have h : relevantMonths reqs7 [exp7] = 0 := by decide
  have h2 : reqs7.min_experience_years = 2 := rfl
  simp only [expMeets, relevantYears, h, h2]
  norm_num

/-- C7 amended: the evaluator sums the parsed duration months of exactly
the keyword-relevant experiences, the numeric requirement is met exactly
when the resulting years reach the required value, and a profile with no
experiences never meets a positive numeric requirement. -/
theorem c7_relevant_experience_only (reqs : Requirements) (exps : List Experience) :
    relevantMonths reqs exps
        = ((exps.filter (isRelevant (expKeywords reqs))).map
            (fun e => durationMonths e.duration)).sum
    ∧ (expMeets reqs exps = true ↔
        reqs.min_experience_years ≤ (relevantMonths reqs exps : ℚ) / 12)
    ∧ (0 < reqs.min_experience_years → expMeets reqs [] = false) := by
  refine ⟨?_, ?_, ?_⟩
  · rw [relevantMonths, foldAddMonths]
    omega
  · simp [expMeets, relevantYears]
  · intro h
    have h0 : relevantMonths reqs [] = 0 := rfl
    simp only [expMeets, relevantYears, h0, Nat.cast_zero, zero_div,
      decide_eq_false_iff_not, not_le]
    exact h

/-- Witness of the C7 amended theorem at the 2 year negotiation template:
the empty experience list fails the requirement, and the months of the
single profile are the sum over its relevant experiences. -/
theorem c7_relevant_experience_only_witness :
    (0 : ℚ) < reqs7.min_experience_years ∧
    expMeets reqs7 [] = false ∧
    relevantMonths reqs7 [exp7]
      = (([exp7].filter (isRelevant (expKeywords reqs7))).map
          (fun e => durationMonths e.duration)).sum :=
  ⟨by rw [show reqs7.min_experience_years = 2 from rfl]; decide,
   (c7_relevant_experience_only reqs7 []).2.2
     (by rw [show reqs7.min_experience_years = 2 from rfl]; decide),
   (c7_relevant_experience_only reqs7 [exp7]).1⟩

/-- C10: an age strictly outside the required range still earns points on a
graded scale: within 4 years of the violated bound the age component is 10
minus 2 per year of distance, which is positive. -/
theorem c10_graded_age_score (reqs : Requirements) (p : Profile) (r : AgeRange)
    (a : Nat) (hr : reqs.required_age_range = some r)
    (ha : resolvedAge p = some a) (h0 : a ≠ 0) :
    (a < r.min → r.min - a ≤ 4 →
        ((ageScore reqs p).1 = 10 - 2 * ((r.min : ℚ) - (a : ℚ)) ∧
          0 < (ageScore reqs p).1))
    ∧ (r.min ≤ a → r.max < a → a - r.max ≤ 4 →
        ((ageScore reqs p).1 = 10 - 2 * ((a : ℚ) - (r.max : ℚ)) ∧
          0 < (ageScore reqs p).1)) := by
  constructor
  · intro hlt hd
    have hnotin : ¬(r.min ≤ a ∧ a ≤ r.max) := by omega
    simp only [ageScore, hr, ha]
    rw [if_pos h0, if_neg hnotin, if_pos hlt]
    have hmax : max 0 (10 - 2 * ((r.min : ℤ) - (a : ℤ)))
        = 10 - 2 * ((r.min : ℤ) - (a : ℤ)) := by omega
    rw [hmax]
    constructor
    · push_cast
      ring
    · have h4 : (r.min : ℤ) - (a : ℤ) ≤ 4 := by omega
      push_cast
      have h4q : (r.min : ℚ) - (a : ℚ) ≤ 4 := by exact_mod_cast h4
      linarith
  · intro hge hgt hd
    have hnotin : ¬(r.min ≤ a ∧ a ≤ r.max) := by omega
    have hnlt : ¬(a < r.min) := by omega
    simp only [ageScore, hr, ha]
    rw [if_pos h0, if_neg hnotin, if_neg hnlt]
    have hmax : max 0 (10 - 2 * ((a : ℤ) - (r.max : ℤ)))
        = 10 - 2 * ((a : ℤ) - (r.max : ℤ)) := by omega
    rw [hmax]
    constructor
    · push_cast
      ring
    · have h4 : (a : ℤ) - (r.max : ℤ) ≤ 4 := by omega
      push_cast
      have h4q : (a : ℚ) - (r.max : ℚ) ≤ 4 := by exact_mod_cast h4
      linarith

/-- Witness of the C10 theorem: age 37 against the 20 to 35 range earns
10 minus 2 times 2, a positive 6 points, although it is not matched. -/
theorem c10_graded_age_score_witness :
    (35 : Nat) < 37 ∧ (37 : Nat) - 35 ≤ 4 ∧
    ((ageScore reqsAge profAge37).1
        = 10 - 2 * (((37 : Nat) : ℚ) - ((35 : Nat) : ℚ)) ∧
      0 < (ageScore reqsAge profAge37).1) :=
  ⟨by decide, by decide,
    (c10_graded_age_score reqsAge profAge37 ⟨20, 35⟩ 37 rfl rfl
        (by decide)).2 (by decide) (by decide) (by decide)⟩

/-- One dispatch step never introduces a url that is already recorded as
crawled. -/
theorem loadStepNotMem (crawled : List (List Char)) (u : List Char)
    (hmem : u ∈ crawled) (acc : List (List Char) × Nat) (url : List Char)
    (hacc : u ∉ acc.1) : u ∉ (loadStep crawled acc url).1 := by
  unfold loadStep
  split_ifs with h1 h2 h3
  · exact hacc
  · exact hacc
  · exact hacc
  · intro hin
    rcases List.mem_append.mp hin with h | h
    · exact hacc h
    · have he : u = url := by simpa using h
      exact h3 (he ▸ hmem)

/-- The dispatch fold never publishes a url that is already recorded as
crawled. -/
theorem loadUrlsNotMem (crawled : List (List Char)) (u : List Char)
    (hmem : u ∈ crawled) :
    ∀ (entries : List (List Char)) (acc : List (List Char) × Nat),
      u ∉ acc.1 → u ∉ (entries.foldl (loadStep crawled) acc).1 := by
  intro entries
  induction entries with
  | nil => exact fun acc h => h
  | cons e t ih =>
    intro acc hacc
    simp only [List.foldl_cons]
    exact ih _ (loadStepNotMem crawled u hmem acc e hacc)

/-- C2 counterexample: the claim says a crawl job for an already crawled
url is short-circuited before the Scraper runs, with no score job and an
incremented skipped counter; but the worker callback of the source never
consults the dedup check before scraping, so on a recorded url the Scraper
is invoked, a score job is published and skipped stays unchanged. -/
theorem c2_counterexample :
    urlU ∈ [urlU] ∧
    (crawlCallback [urlU] (some msgU) (.ok profU) true).scraperInvoked = true ∧
    (crawlCallback [urlU] (some msgU) (.ok profU) true).scoreJobsPublished = 1 ∧
    (crawlCallback [urlU] (some msgU) (.ok profU) true).skippedDelta = 0 := by
  decide

/-- C2 amended: deduplication happens at dispatch time, not in the worker:
the url loader never publishes an already crawled url (counting it as
skipped instead), while a crawl job for an already crawled url that does
reach a worker invokes the Scraper again, publishes another score job and
is acked; only the profile file save is skipped, leaving the recorded url
set unchanged. -/
theorem c2_dispatch_dedup (entries crawled : List (List Char)) (u : List Char)
    (msg : CrawlMsg) (prof : Profile) (pubOk : Bool)
    (hmem : u ∈ crawled) (hne : u ≠ []) (hurl : msg.url = some u)
    (hpu : prof.profile_url = u) :
    u ∉ (loadUrls entries crawled).1 ∧
    (crawlCallback crawled (some msg) (.ok prof) pubOk).scraperInvoked = true ∧
    (crawlCallback crawled (some msg) (.ok prof) pubOk).resolution
      = [Resolution.ack] ∧
    (crawlCallback crawled (some msg) (.ok prof) pubOk).scoreJobsPublished
      = (if pubOk then 1 else 0) ∧
    (crawlCallback crawled (some msg) (.ok prof) pubOk).savedProfile = false ∧
    (crawlCallback crawled (some msg) (.ok prof) pubOk).crawledUrls = crawled ∧
    (crawlCallback crawled (some msg) (.ok prof) pubOk).skippedDelta = 0 := by
  have hsave : saveProfileData crawled prof.profile_url = (false, crawled) := by
    rw [hpu]
    unfold saveProfileData
    rw [if_pos ⟨hne, by simpa [checkIfAlreadyCrawled] using hmem⟩]
  obtain ⟨url⟩ := msg
  simp only at hurl
  subst hurl
  exact ⟨loadUrlsNotMem crawled u hmem entries ([], 0) (by simp),
    rfl, rfl, by simp [crawlCallback, hsave], by simp [crawlCallback, hsave],
    by simp [crawlCallback, hsave], rfl⟩

/-- Witness of the C2 amended theorem at a concrete recorded url. -/
theorem c2_dispatch_dedup_witness :
    urlU ∈ [urlU] ∧ urlU ≠ [] ∧ msgU.url = some urlU ∧
    profU.profile_url = urlU ∧
    (urlU ∉ (loadUrls [urlU] [urlU]).1 ∧
      (crawlCallback [urlU] (some msgU) (.ok profU) true).scraperInvoked = true ∧
      (crawlCallback [urlU] (some msgU) (.ok profU) true).resolution
        = [Resolution.ack] ∧
      (crawlCallback [urlU] (some msgU) (.ok profU) true).scoreJobsPublished
        = (if true then 1 else 0) ∧
      (crawlCallback [urlU] (some msgU) (.ok profU) true).savedProfile = false ∧
      (crawlCallback [urlU] (some msgU) (.ok profU) true).crawledUrls = [urlU] ∧
      (crawlCallback [urlU] (some msgU) (.ok profU) true).skippedDelta = 0) :=
  ⟨by decide, by decide, rfl, rfl,
    c2_dispatch_dedup [urlU] [urlU] urlU msgU profU true (by decide) (by decide)
      rfl rfl⟩

/-- The per-row update of the lead table preserves the url key. -/
theorem scoreUpdUrl (url : List Char) (ts : ℚ) (pd : Option Profile)
    (today : Nat) (epd : Option Profile) (l : Lead) :
    (scoreUpd url ts pd today epd l).profile_url = l.profile_url := by
  by_cases h : (l.profile_url == url) = true <;> simp [scoreUpd, h]

/-- Finding by url commutes with mapping a url-preserving row update. -/
theorem findMapPreserve (url : List Char) (f : Lead → Lead)
    (hf : ∀ l, (f l).profile_url = l.profile_url) (st : List Lead) :
    (st.map f).find? (fun l => l.profile_url == url)
      = (st.find? (fun l => l.profile_url == url)).map f := by
  induction st with
  | nil => rfl
  | cons a t ih =>
    simp only [List.map_cons, List.find?]
    rw [hf a]
    cases hpa : (a.profile_url == url) with
    | true => simp
    | false => simpa using ih

/-- Finding in an append skips a first part with no hit. -/
theorem findAppendNone (p : Lead → Bool) (l1 l2 : List Lead)
    (h : l1.find? p = none) : (l1 ++ l2).find? p = l2.find? p := by
  induction l1 with
  | nil => rfl
  | cons a t ih =>
    simp only [List.find?] at h
    simp only [List.cons_append, List.find?]
    cases hpa : p a with
    | true =>
      rw [hpa] at h
      exact absurd h (by simp)
    | false =>
      rw [hpa] at h
      exact ih h

/-- One application of the score update always leaves the lead of the url
holding exactly the new score and the new scoring date, whether it updated
an existing row or inserted a fresh one. -/
theorem getLeadUpdate (st : List Lead) (url : List Char) (s : ℚ)
    (pd : Option Profile) (t : Nat) :
    ∃ l, getLead (updateSupabaseScore st url s pd t) url = some l
      ∧ l.score = some s ∧ l.scored_at = some t := by
  unfold updateSupabaseScore
  cases h : getLead st url with
  | none =>
    unfold getLead at h ⊢
    simp only [findAppendNone _ _ _ h, List.find?, beq_self_eq_true]
    exact ⟨_, rfl, rfl, rfl⟩
  | some e =>
    unfold getLead at h
    have hpe : (e.profile_url == url) = true :=
      @List.find?_some _ (fun l => l.profile_url == url) e st h
    have hmap := findMapPreserve url (scoreUpd url s pd t e.profile_data)
      (scoreUpdUrl url s pd t e.profile_data) st
    refine ⟨scoreUpd url s pd t e.profile_data e, ?_, ?_, ?_⟩
    · unfold getLead
      rw [hmap, h]
      rfl
    · unfold scoreUpd
      rw [if_pos hpe]
    · unfold scoreUpd
      rw [if_pos hpe]

/-- C4: scoring the same url twice leaves the persisted lead holding
exactly the score and scoring date of the second update: the score update
always overwrites, with no averaging and no retained history (the lead row
has a single score field, refreshed on every update). -/
theorem c4_score_overwrite (st : List Lead) (url : List Char) (s1 s2 : ℚ)
    (pd1 pd2 : Option Profile) (t1 t2 : Nat) :
    ∃ l, getLead (updateSupabaseScore
          (updateSupabaseScore st url s1 pd1 t1) url s2 pd2 t2) url = some l
      ∧ l.score = some s2 ∧ l.scored_at = some t2 :=
  getLeadUpdate (updateSupabaseScore st url s1 pd1 t1) url s2 pd2 t2

/-- C8: every run of either worker callback resolves the message to exactly
one broker operation, an ack or a nack without requeue, for every parse and
processing outcome; the resolution of a message depends only on that
message and its own outcome, so one job cannot leave another unresolved. -/
theorem c8_always_resolved :
    (∀ (crawled : List (List Char)) (body : Option CrawlMsg)
        (scrape : Except Unit Profile) (pubOk : Bool),
        (crawlCallback crawled body scrape pubOk).resolution
            = [Resolution.ack] ∨
        (crawlCallback crawled body scrape pubOk).resolution
            = [Resolution.nackNoRequeue])
    ∧ (∀ (scoredFiles : List (List Char × List Char)) (body : Option ScoreMsg)
        (reqsLookup : Option Requirements),
        (scoringCallback scoredFiles body reqsLookup).resolution
            = [Resolution.ack] ∨
        (scoringCallback scoredFiles body reqsLookup).resolution
            = [Resolution.nackNoRequeue]) := by
  constructor
  · intro crawled body scrape pubOk
    rcases body with _ | ⟨url⟩
    · right; rfl
    rcases url with _ | u
    · left; rfl
    rcases scrape with e | p
    · right; rfl
    · left; rfl
  · intro sf body rl
    rcases body with _ | ⟨pd, tid, rid⟩
    · right; rfl
    rcases pd with _ | prof
    · right; rfl
    have hcases : ∀ rq : List Char,
        (scoringCallback sf (some ⟨some prof, some rq, rid⟩) rl).resolution
            = [Resolution.ack] ∨
        (scoringCallback sf (some ⟨some prof, some rq, rid⟩) rl).resolution
            = [Resolution.nackNoRequeue] := by
      intro rq
      by_cases hsk : prof.profile_url ≠ []
          ∧ checkIfAlreadyScored sf prof.profile_url rq = true
      · left
        simp only [scoringCallback, orId]
        rw [if_pos hsk]
      · rcases rl with _ | reqs
        · right
          simp only [scoringCallback, orId]
          rw [if_neg hsk]
        · left
          simp only [scoringCallback, orId]
          rw [if_neg hsk]
    rcases tid with _ | t
    · rcases rid with _ | rId
      · right; rfl
      · exact hcases rId
    · exact hcases t

/-- C9 counterexample: the claim says a crawl message without a url is
counted in the failed counter; the source acks it immediately without
touching any counter. -/
theorem c9_counterexample :
    msgNoUrl.url = none ∧
    (crawlCallback [] (some msgNoUrl) (.error ()) true).resolution
      = [Resolution.ack] ∧
    (crawlCallback [] (some msgNoUrl) (.error ()) true).failedDelta = 0 := by
  decide

/-- C9 amended: a scoring message missing its profile data, or carrying
neither a template id nor a requirements id, is dropped without requeue and
counted as failed; a crawl message without a url is acked immediately
without any counter change and without invoking the Scraper. -/
theorem c9_validation_handling
    (crawled : List (List Char)) (msg : CrawlMsg) (scrape : Except Unit Profile)
    (pubOk : Bool) (scoredFiles : List (List Char × List Char))
    (smsg1 smsg2 : ScoreMsg) (reqsLookup : Option Requirements) (prof : Profile)
    (hc : msg.url = none) (h1 : smsg1.profile_data = none)
    (h2p : smsg2.profile_data = some prof) (h2t : smsg2.template_id = none)
    (h2r : smsg2.requirements_id = none) :
    ((crawlCallback crawled (some msg) scrape pubOk).resolution
        = [Resolution.ack] ∧
      (crawlCallback crawled (some msg) scrape pubOk).failedDelta = 0 ∧
      (crawlCallback crawled (some msg) scrape pubOk).scraperInvoked = false) ∧
    ((scoringCallback scoredFiles (some smsg1) reqsLookup).resolution
        = [Resolution.nackNoRequeue] ∧
      (scoringCallback scoredFiles (some smsg1) reqsLookup).failedDelta = 1) ∧
    ((scoringCallback scoredFiles (some smsg2) reqsLookup).resolution
        = [Resolution.nackNoRequeue] ∧
      (scoringCallback scoredFiles (some smsg2) reqsLookup).failedDelta = 1) := by
  obtain ⟨url⟩ := msg
  obtain ⟨pd1, t1, r1⟩ := smsg1
  obtain ⟨pd2, t2, r2⟩ := smsg2
  simp only at hc h1 h2p h2t h2r
  subst hc h1 h2p h2t h2r
  exact ⟨⟨rfl, rfl, rfl⟩, ⟨rfl, rfl⟩, ⟨rfl, rfl⟩⟩

/-- Witness of the C9 amended theorem at concrete malformed messages. -/
theorem c9_validation_handling_witness :
    msgNoUrl.url = none ∧ smsgNoProfile.profile_data = none ∧
    smsgNoIds.profile_data = some profU ∧ smsgNoIds.template_id = none ∧
    smsgNoIds.requirements_id = none ∧
    (((crawlCallback [] (some msgNoUrl) (.error ()) true).resolution
        = [Resolution.ack] ∧
      (crawlCallback [] (some msgNoUrl) (.error ()) true).failedDelta = 0 ∧
      (crawlCallback [] (some msgNoUrl) (.error ()) true).scraperInvoked
        = false) ∧
    ((scoringCallback [] (some smsgNoProfile) none).resolution
        = [Resolution.nackNoRequeue] ∧
      (scoringCallback [] (some smsgNoProfile) none).failedDelta = 1) ∧
    ((scoringCallback [] (some smsgNoIds) none).resolution
        = [Resolution.nackNoRequeue] ∧
      (scoringCallback [] (some smsgNoIds) none).failedDelta = 1)) :=
  ⟨rfl, rfl, rfl, rfl, rfl,
    c9_validation_handling [] msgNoUrl (.error ()) true [] smsgNoProfile
      smsgNoIds none profU rfl rfl rfl rfl rfl⟩

end Scrapper
